import Mathlib

/-!
# Verification of the rail operations and maintenance optimizer

A shallow embedding of `src/rail_optimizer/core/optimizer.py`
(`solve_rail_optimization`).  The builder translates an instance
(vehicles, locations, maintenance types, routes) into a CP-SAT model.
We embed the built model as a decidable predicate `modelSat` over an
explicit valuation `Asgn` of all decision variables: an assignment is
admitted by the model exactly when `modelSat` holds.  String
identifiers are interned as positional `Nat` indices, matching the
`location_id_to_index` interning of the source; machine integers are
`Int`/`Nat` (CP-SAT integer variables have explicit finite domains,
embedded as bound conjuncts).
-/

/-- Kind of a maintenance type: `"preventive"` or `"corrective"` in the JSON. -/
inductive MKind where
  | preventive
  | corrective
deriving DecidableEq

/-- Time-grid slot kind: the synthetic initial pseudo-shift, or a day/night shift. -/
inductive ShiftKind where
  | initialShift
  | dayShift
  | nightShift
deriving DecidableEq

/-- A location (`locations` dict entry).  Position in `RailData.locations` is the
interned index (`location_id_to_index`).  `manhoursPerShift` and
`specializedMaintenance` are meaningful for depots only. -/
structure LocData where
  isDepot : Bool
  capacity : Int
  manhoursPerShift : Int
  specializedMaintenance : List Nat
deriving DecidableEq

/-- A pending task `{"maintenance_type_id": ..., "remaining_km": ...}`. -/
structure PendingTask where
  maintenanceTypeId : Nat
  remainingKm : Int
deriving DecidableEq

/-- A vehicle.  `initialLocation` is an interned location index. -/
structure Vehicle where
  initialLocation : Nat
  initialKm : Int
  pendingCorrectiveTasks : List PendingTask
  pendingPreventiveTasks : List PendingTask
deriving DecidableEq

/-- A maintenance type from the catalogue.  `optimalKm`/`maxKm` are meaningful
for preventive types, `maxKmWindow`/`safetyCritical` for corrective types
(the optimizer never reads the latter two). -/
structure MaintType where
  mid : Nat
  kind : MKind
  manhours : Nat
  specialization : Option Nat
  optimalKm : Int
  maxKm : Int
  maxKmWindow : Int
  safetyCritical : Bool
deriving DecidableEq

/-- A route.  Endpoints are interned location indices. -/
structure Route where
  day : Nat
  shift : ShiftKind
  startLocation : Nat
  endLocation : Nat
  distanceKm : Int
deriving DecidableEq

/-- The input instance: the four collections extracted at the top of
`solve_rail_optimization`. -/
structure RailData where
  vehicles : List Vehicle
  locations : List LocData
  maintenanceTypes : List MaintType
  routes : List Route
deriving DecidableEq

/-- `planning_days = max(route["day"] for route in routes)`.  Python `max`
raises `ValueError` on an empty sequence, embedded as `none`. -/
def horizonDays (d : RailData) : Option Nat :=
  match d.routes.map (fun r => r.day) with
  | [] => none
  | x :: xs => some (xs.foldl max x)

/-- Number of entries of `all_shifts_with_initial`:
`[(0, initial)] ++ [(d, day), (d, night) for d in 1..D]`. -/
def numShifts (d : RailData) : Nat := 2 * (horizonDays d).getD 0 + 1

/-- Kind of the shift at index `σ` of `all_shifts_with_initial`:
index 0 is the initial pseudo-shift, odd indices are day shifts,
positive even indices are night shifts. -/
def shiftKindOf (σ : Nat) : ShiftKind :=
  if σ = 0 then .initialShift else if σ % 2 = 1 then .dayShift else .nightShift

/-- Calendar day of the shift at index `σ` (day `(σ+1)/2` for `σ ≥ 1`). -/
def dayOf (σ : Nat) : Nat := (σ + 1) / 2

/-- Vehicle accessor: `vehicle["initial_km"]` of the vehicle at position `vi`. -/
def vehInitialKm (d : RailData) (vi : Nat) : Int :=
  ((d.vehicles[vi]?).map (fun v => v.initialKm)).getD 0

/-- Vehicle accessor: interned `vehicle["initial_location"]`. -/
def vehInitialLoc (d : RailData) (vi : Nat) : Nat :=
  ((d.vehicles[vi]?).map (fun v => v.initialLocation)).getD 0

/-- Vehicle accessor: `vehicle.get("pending_corrective_tasks", [])`. -/
def vehPendingCorrective (d : RailData) (vi : Nat) : List PendingTask :=
  ((d.vehicles[vi]?).map (fun v => v.pendingCorrectiveTasks)).getD []

/-- Number of vehicles. -/
def numVehicles (d : RailData) : Nat := d.vehicles.length

/-- `max_initial_km = max(vehicle["initial_km"] for vehicle in vehicles)`
(the `vehicles ≠ []` requirement is a separate conjunct of `modelSat`). -/
def maxInitialKm (d : RailData) : Int :=
  match d.vehicles.map (fun v => v.initialKm) with
  | [] => 0
  | x :: xs => xs.foldl max x

/-- `max_possible_km = max_initial_km + sum of all route distances`. -/
def maxPossibleKm (d : RailData) : Int :=
  maxInitialKm d + (d.routes.map (fun r => r.distanceKm)).sum

/-- Location accessor. -/
def locAt (d : RailData) (ℓ : Nat) : Option LocData := d.locations[ℓ]?

/-- `loc_data["type"] == "depot"`. -/
def locIsDepot (d : RailData) (ℓ : Nat) : Bool :=
  ((locAt d ℓ).map (fun l => l.isDepot)).getD false

/-- `loc_data["capacity"]`. -/
def locCapacity (d : RailData) (ℓ : Nat) : Int :=
  ((locAt d ℓ).map (fun l => l.capacity)).getD 0

/-- `loc_data["manhours_per_shift"]`. -/
def locManhours (d : RailData) (ℓ : Nat) : Int :=
  ((locAt d ℓ).map (fun l => l.manhoursPerShift)).getD 0

/-- Maintenance-type accessor. -/
def mtAt (d : RailData) (ti : Nat) : Option MaintType := d.maintenanceTypes[ti]?

/-- `maint_type["id"]`. -/
def mtId (d : RailData) (ti : Nat) : Nat :=
  ((mtAt d ti).map (fun m => m.mid)).getD 0

/-- `maint_type["type"]` (`preventive`/`corrective`). -/
def mtKind (d : RailData) (ti : Nat) : Option MKind :=
  (mtAt d ti).map (fun m => m.kind)

/-- `maint_type["manhours"]`. -/
def mtManhours (d : RailData) (ti : Nat) : Nat :=
  ((mtAt d ti).map (fun m => m.manhours)).getD 0

/-- `maint_type["optimal_km"]` (preventive). -/
def mtOptimalKm (d : RailData) (ti : Nat) : Int :=
  ((mtAt d ti).map (fun m => m.optimalKm)).getD 0

/-- `maint_type["max_km"]` (preventive). -/
def mtMaxKm (d : RailData) (ti : Nat) : Int :=
  ((mtAt d ti).map (fun m => m.maxKm)).getD 0

/-- `maint_type.get("specialization", None)`. -/
def mtSpecialization (d : RailData) (ti : Nat) : Option Nat :=
  (mtAt d ti).bind (fun m => m.specialization)

/-- `depot_indices`: interned indices of locations of type depot, in order. -/
def depotIdx (d : RailData) : List Nat :=
  (List.range d.locations.length).filter (fun i => locIsDepot d i)

/-- Depots declaring specialization `sp`
(`loc_data["type"] == "depot" and specialization in loc_data["specialized_maintenance"]`). -/
def capableDepotIdx (d : RailData) (sp : Nat) : List Nat :=
  (List.range d.locations.length).filter
    (fun i => match locAt d i with
      | some ld => ld.isDepot && ld.specializedMaintenance.contains sp
      | none => false)

/-- Domain of `maint_assigned_depot`: capable depots for a specialized type
(falling back to all depots when no depot is capable), all depots otherwise. -/
def depDomain (d : RailData) (ti : Nat) : List Nat :=
  match mtSpecialization d ti with
  | some sp =>
      let cap := capableDepotIdx d sp
      if cap = [] then depotIdx d else cap
  | none => depotIdx d

/-- `est_duration = min(max(1, required_manhours // 8), max_maint_duration)` with
`max_maint_duration = 5` (floor division, as in the source). -/
def estDuration (manhours : Nat) : Nat := min (max 1 (manhours / 8)) 5

/-- `int(required_manhours / est_duration)`: the per-shift manhour draw of a
maintenance instance (Python float division truncated to an integer, which is
floor division on these non-negative operands). -/
def perShiftDraw (manhours : Nat) : Nat := manhours / estDuration manhours

/-- Maintenance-instance keys `(vehicle index, maintenance-type index, start shift
index)`, enumerated in source order: vehicles outer, types middle, start shifts
`1 .. numShifts-1` inner. -/
def instKeys (d : RailData) : List (Nat × Nat × Nat) :=
  (List.range (numVehicles d)).flatMap (fun vi =>
    (List.range d.maintenanceTypes.length).flatMap (fun ti =>
      (List.range (numShifts d - 1)).map (fun j => (vi, ti, j + 1))))

/-- Duration in shifts of instance `k` (fixed from the type's manhours). -/
def instDur (d : RailData) (k : Nat × Nat × Nat) : Nat :=
  estDuration (mtManhours d k.2.1)

/-- The shift indices `range(start_idx, min(start_idx + est_duration, numShifts))`
in which instance `k` would be active. -/
def windowList (d : RailData) (k : Nat × Nat × Nat) : List Nat :=
  List.range' k.2.2 (min (instDur d k) (numShifts d - k.2.2))

/-- Routes scheduled in the shift at index `σ`, with their positional ids
(`routes_by_day_shift` of the `(day, shift)` label of `σ`). -/
def routesAt (d : RailData) (σ : Nat) : List (Nat × Route) :=
  d.routes.enum.filter (fun p => p.2.day = dayOf σ ∧ p.2.shift = shiftKindOf σ)

/-- 0/1 value of a Boolean decision variable, as summed by the linear constraints. -/
def boolInt (b : Bool) : Int := if b then 1 else 0

/-- A valuation of every decision variable of the built model.  Maintenance
instances are keyed by `(vehicle, type, start shift)`; depots and locations by
interned index. -/
structure Asgn where
  assign : Nat → Nat → Bool
  loc : Nat → Nat → Int
  km : Nat → Nat → Int
  perf : Nat × Nat × Nat → Bool
  dep : Nat × Nat × Nat → Int
  kms : Nat × Nat × Nat → Int
  active : Nat × Nat × Nat → Nat → Bool
  devPos : Nat × Nat × Nat → Int
  devNeg : Nat × Nat × Nat → Int
  dev : Nat × Nat × Nat → Int
  idleL : Nat → Nat → Bool
  isAtLoc : Nat → Nat → Nat → Bool
  combinedL : Nat × Nat × Nat → Nat → Bool
  isAtDepot : Nat × Nat × Nat → Nat → Bool
  activeAtDepot : Nat × Nat × Nat → Nat → Nat → Bool
  demand : Nat × Nat × Nat → Nat → Nat → Int
  routeKmTerm : Nat → Nat → Int

/-- Python-level flag of the C4 loop: `True` iff some maintenance instance of
vehicle `vi` has an active *variable* for shift `σ`, i.e. the key
`(instance_id, σ)` exists in `maint_active_s` (the source tests key existence,
not the variable's value). -/
def maintActiveInShift (d : RailData) (vi σ : Nat) : Bool :=
  (instKeys d).any (fun k => k.1 == vi && decide (σ ∈ windowList d k))

/-- Domains of the created integer variables: `loc_start_vs ∈ [0, L-1]`,
`km_at_shift_start ∈ [0, max_possible_km]`, `maint_assigned_depot` in its
depot domain, `km_at_maint_start ∈ [0, max_possible_km]`, and for preventive
instances the deviation, positive-part and negative-part variables in
`[0, max_possible_km]`. -/
def varDomainsOk (d : RailData) (a : Asgn) : Prop :=
  (∀ vi ∈ List.range (numVehicles d), ∀ σ ∈ List.range (numShifts d),
    0 ≤ a.loc vi σ ∧ a.loc vi σ ≤ (d.locations.length : Int) - 1 ∧
    0 ≤ a.km vi σ ∧ a.km vi σ ≤ maxPossibleKm d) ∧
  (∀ k ∈ instKeys d,
    a.dep k ∈ (depDomain d k.2.1).map Int.ofNat ∧
    0 ≤ a.kms k ∧ a.kms k ≤ maxPossibleKm d ∧
    (mtKind d k.2.1 = some .preventive →
      0 ≤ a.dev k ∧ a.dev k ≤ maxPossibleKm d ∧
      0 ≤ a.devPos k ∧ a.devPos k ≤ maxPossibleKm d ∧
      0 ≤ a.devNeg k ∧ a.devNeg k ≤ maxPossibleKm d))

/-- Constraints emitted inside the maintenance-instance creation loop:
km recording under `perf`, the preventive max-km bound and deviation
linearization, the corrective window of the first matching pending task
(the source `break`s after the first match), the `active → performed`
couplings and stationarity over the active window, and the depot location
coupling at the start shift. -/
def instanceConsOk (d : RailData) (a : Asgn) : Prop :=
  ∀ k ∈ instKeys d,
    (a.perf k = true → a.kms k = a.km k.1 k.2.2) ∧
    (mtKind d k.2.1 = some .preventive →
      (a.perf k = true → a.kms k ≤ mtMaxKm d k.2.1) ∧
      (a.perf k = true → a.kms k - mtOptimalKm d k.2.1 = a.devPos k - a.devNeg k) ∧
      (a.perf k = true → a.dev k = a.devPos k + a.devNeg k) ∧
      (a.perf k = false → a.dev k = 0)) ∧
    (mtKind d k.2.1 = some .corrective →
      ∀ t ∈ (vehPendingCorrective d k.1).find?
              (fun p => p.maintenanceTypeId == mtId d k.2.1),
        (a.perf k = true → a.kms k ≤ vehInitialKm d k.1 + t.remainingKm)) ∧
    (∀ σ ∈ windowList d k,
      (a.active k σ = true → a.perf k = true) ∧
      (a.perf k = false → a.active k σ = false) ∧
      (σ + 1 < numShifts d → a.active k σ = true →
        a.loc k.1 (σ + 1) = a.loc k.1 σ)) ∧
    (a.perf k = true → a.loc k.1 k.2.2 = a.dep k)

/-- C1 route coverage: each route is assigned to exactly one vehicle. -/
def coverageOk (d : RailData) (a : Asgn) : Prop :=
  ∀ ri ∈ List.range d.routes.length,
    ((List.range (numVehicles d)).map (fun vi => boolInt (a.assign vi ri))).sum = 1

/-- C2 vehicle uniqueness: at most one route per vehicle per shift
(emitted only for shifts that have routes). -/
def uniquenessOk (d : RailData) (a : Asgn) : Prop :=
  ∀ σ ∈ List.range' 1 (numShifts d - 1),
    routesAt d σ ≠ [] →
    ∀ vi ∈ List.range (numVehicles d),
      ((routesAt d σ).map (fun p => boolInt (a.assign vi p.1))).sum ≤ 1

/-- C12 route/maintenance exclusivity: on day shifts with routes, a vehicle
cannot be both on a route and in an active maintenance window. -/
def exclusivityOk (d : RailData) (a : Asgn) : Prop :=
  ∀ σ ∈ List.range' 1 (numShifts d - 1),
    shiftKindOf σ = .dayShift →
    routesAt d σ ≠ [] →
    ∀ vi ∈ List.range (numVehicles d),
      ∀ k ∈ instKeys d, k.1 = vi → σ ∈ windowList d k →
        ∀ p ∈ routesAt d σ,
          ¬(a.assign vi p.1 = true ∧ a.active k σ = true)

/-- C3 initial location pinning at the pseudo-shift `σ = 0`. -/
def initialLocOk (d : RailData) (a : Asgn) : Prop :=
  ∀ vi ∈ List.range (numVehicles d),
    a.loc vi 0 = (vehInitialLoc d vi : Int)

/-- C4 location transitions for every shift `σ ≥ 1`: route start/end coupling
under assignment, stationarity under active maintenance, the reified idle
literal with its continuity clause (skipped whenever `maintActiveInShift`
holds, as in the source), the night-to-day continuity, and the day-to-night
clause with its unconditional fallback for route-free shifts. -/
def transitionsOk (d : RailData) (a : Asgn) : Prop :=
  ∀ σ ∈ List.range' 1 (numShifts d - 1),
    ∀ vi ∈ List.range (numVehicles d),
      (∀ p ∈ routesAt d σ,
        (a.assign vi p.1 = true → a.loc vi σ = (p.2.startLocation : Int)) ∧
        (σ + 1 < numShifts d → a.assign vi p.1 = true →
          a.loc vi (σ + 1) = (p.2.endLocation : Int))) ∧
      (∀ k ∈ instKeys d, k.1 = vi → σ ∈ windowList d k →
        σ + 1 < numShifts d → a.active k σ = true →
          a.loc vi (σ + 1) = a.loc vi σ) ∧
      (routesAt d σ ≠ [] →
        (a.idleL vi σ = true →
          ((routesAt d σ).map (fun p => boolInt (a.assign vi p.1))).sum = 0) ∧
        (a.idleL vi σ = false →
          0 < ((routesAt d σ).map (fun p => boolInt (a.assign vi p.1))).sum) ∧
        (σ + 1 < numShifts d → maintActiveInShift d vi σ = false →
          a.idleL vi σ = true → a.loc vi (σ + 1) = a.loc vi σ)) ∧
      (shiftKindOf σ = .nightShift → σ + 1 < numShifts d →
        shiftKindOf (σ + 1) = .dayShift → a.loc vi (σ + 1) = a.loc vi σ) ∧
      (shiftKindOf σ = .dayShift → σ + 1 < numShifts d →
        shiftKindOf (σ + 1) = .nightShift →
        (∀ p ∈ routesAt d σ, a.assign vi p.1 = true →
          a.loc vi (σ + 1) = (p.2.endLocation : Int)) ∧
        (routesAt d σ = [] → maintActiveInShift d vi σ = false →
          a.loc vi (σ + 1) = a.loc vi σ))

/-- C5 capacity: reified `is_at_loc` literals and the per-location occupancy
bound, for every shift including the initial pseudo-shift. -/
def capacityOk (d : RailData) (a : Asgn) : Prop :=
  ∀ σ ∈ List.range (numShifts d),
    ∀ ℓ ∈ List.range d.locations.length,
      (∀ vi ∈ List.range (numVehicles d),
        (a.isAtLoc vi ℓ σ = true → a.loc vi σ = (ℓ : Int)) ∧
        (a.isAtLoc vi ℓ σ = false → a.loc vi σ ≠ (ℓ : Int))) ∧
      ((List.range (numVehicles d)).map (fun vi => boolInt (a.isAtLoc vi ℓ σ))).sum
        ≤ locCapacity d ℓ

/-- C6 initial km pinning at the pseudo-shift `σ = 0`. -/
def kmInitOk (d : RailData) (a : Asgn) : Prop :=
  ∀ vi ∈ List.range (numVehicles d),
    a.km vi 0 = vehInitialKm d vi

/-- C8 corrective forcing: for every pending corrective task, at least one
matching maintenance instance is performed (emitted twice by the source;
the duplicate is the same constraint). -/
def correctiveForcingOk (d : RailData) (a : Asgn) : Prop :=
  ∀ vi ∈ List.range (numVehicles d),
    ∀ t ∈ vehPendingCorrective d vi,
      ((instKeys d).filter
          (fun k => k.1 == vi && mtId d k.2.1 == t.maintenanceTypeId)) ≠ [] →
      1 ≤ (((instKeys d).filter
          (fun k => k.1 == vi && mtId d k.2.1 == t.maintenanceTypeId)).map
            (fun k => boolInt (a.perf k))).sum

/-- C11 routing to depot: for instances starting after the first shift whose
previous shift is a day shift, the reified `combined` literal
(`assign ∧ perf`) forces the previous route's end to equal the assigned depot. -/
def routingToDepotOk (d : RailData) (a : Asgn) : Prop :=
  ∀ k ∈ instKeys d,
    1 < k.2.2 →
    shiftKindOf (k.2.2 - 1) = .dayShift →
    ∀ p ∈ routesAt d (k.2.2 - 1),
      (a.combinedL k p.1 = true → a.assign k.1 p.1 = true ∧ a.perf k = true) ∧
      (a.combinedL k p.1 = false → a.assign k.1 p.1 = false ∨ a.perf k = false) ∧
      (a.combinedL k p.1 = true → (p.2.endLocation : Int) = a.dep k)

/-- C6 km accumulation: per-route km terms and the chaining equation, for the
transitions out of shifts `1 .. numShifts-2` (the source loop skips the
initial pseudo-shift, so the `0 → 1` transition is not constrained). -/
def kmUpdateOk (d : RailData) (a : Asgn) : Prop :=
  ∀ σ ∈ List.range' 1 (numShifts d - 2),
    ∀ vi ∈ List.range (numVehicles d),
      (∀ p ∈ routesAt d σ,
        0 ≤ a.routeKmTerm vi p.1 ∧ a.routeKmTerm vi p.1 ≤ p.2.distanceKm ∧
        (a.assign vi p.1 = true → a.routeKmTerm vi p.1 = p.2.distanceKm) ∧
        (a.assign vi p.1 = false → a.routeKmTerm vi p.1 = 0)) ∧
      (routesAt d σ = [] → a.km vi (σ + 1) = a.km vi σ) ∧
      (routesAt d σ ≠ [] →
        a.km vi (σ + 1) =
          a.km vi σ + ((routesAt d σ).map (fun p => a.routeKmTerm vi p.1)).sum)

/-- C9/C10 manhour constraints: per-(instance, depot) `is_at_depot` reification,
per-(instance, depot, shift) `active_at_depot` reification and gated demand
variables, and the per-depot per-shift budget over all demand variables created
for that shift (guarded on the demand list being nonempty, as in the source). -/
def manhourConsOk (d : RailData) (a : Asgn) : Prop :=
  (∀ k ∈ instKeys d,
    ∀ ℓ ∈ List.range d.locations.length, locIsDepot d ℓ = true →
      (a.isAtDepot k ℓ = true → a.dep k = (ℓ : Int)) ∧
      (a.isAtDepot k ℓ = false → a.dep k ≠ (ℓ : Int)) ∧
      (∀ σ ∈ windowList d k,
        (a.activeAtDepot k ℓ σ = true →
          a.active k σ = true ∧ a.isAtDepot k ℓ = true) ∧
        (a.activeAtDepot k ℓ σ = false →
          a.active k σ = false ∨ a.isAtDepot k ℓ = false) ∧
        0 ≤ a.demand k ℓ σ ∧
        a.demand k ℓ σ ≤ (perShiftDraw (mtManhours d k.2.1) : Int) ∧
        (a.activeAtDepot k ℓ σ = true →
          a.demand k ℓ σ = (perShiftDraw (mtManhours d k.2.1) : Int)) ∧
        (a.activeAtDepot k ℓ σ = false → a.demand k ℓ σ = 0))) ∧
  (∀ ℓ ∈ List.range d.locations.length, locIsDepot d ℓ = true →
    ∀ σ ∈ List.range' 1 (numShifts d - 1),
      ((instKeys d).filter (fun k => decide (σ ∈ windowList d k))) ≠ [] →
      (((instKeys d).filter (fun k => decide (σ ∈ windowList d k))).map
          (fun k => a.demand k ℓ σ)).sum ≤ locManhours d ℓ)

/-- The conjunction of every constraint of the built model, in emission order,
together with the variable domains.  The two leading conjuncts embed the two
Python-level crashes on degenerate input (`max()` of an empty sequence for
`planning_days` and `max_initial_km`): such instances admit no assignment. -/
def modelSat (d : RailData) (a : Asgn) : Prop :=
  horizonDays d ≠ none ∧ d.vehicles ≠ [] ∧
  varDomainsOk d a ∧ instanceConsOk d a ∧
  coverageOk d a ∧ uniquenessOk d a ∧ exclusivityOk d a ∧
  initialLocOk d a ∧ transitionsOk d a ∧ capacityOk d a ∧
  kmInitOk d a ∧ correctiveForcingOk d a ∧ routingToDepotOk d a ∧
  kmUpdateOk d a ∧ manhourConsOk d a

/-- Instance keys whose maintenance type is preventive (the instances that
contribute a deviation variable to the objective). -/
def preventiveKeys (d : RailData) : List (Nat × Nat × Nat) :=
  (instKeys d).filter (fun k => decide (mtKind d k.2.1 = some MKind.preventive))

/-- The minimized objective `sum(deviation_vars)`. -/
def objective (d : RailData) (a : Asgn) : Int :=
  ((preventiveKeys d).map (fun k => a.dev k)).sum

/-- Modelled from the spec: the value the objective is claimed to equal, the
sum over performed preventive instances of `|km_at_maint_start − optimal_km|`
(unperformed instances contributing 0). -/
def perfDeviationSum (d : RailData) (a : Asgn) : Int :=
  ((preventiveKeys d).map
    (fun k => if a.perf k = true then |a.kms k - mtOptimalKm d k.2.1| else 0)).sum

instance (d : RailData) (a : Asgn) : Decidable (varDomainsOk d a) := by
  unfold varDomainsOk; infer_instance

instance (d : RailData) (a : Asgn) : Decidable (instanceConsOk d a) := by
  unfold instanceConsOk; infer_instance

instance (d : RailData) (a : Asgn) : Decidable (coverageOk d a) := by
  unfold coverageOk; infer_instance

instance (d : RailData) (a : Asgn) : Decidable (uniquenessOk d a) := by
  unfold uniquenessOk; infer_instance

instance (d : RailData) (a : Asgn) : Decidable (exclusivityOk d a) := by
  unfold exclusivityOk; infer_instance

instance (d : RailData) (a : Asgn) : Decidable (initialLocOk d a) := by
  unfold initialLocOk; infer_instance

set_option synthInstance.maxSize 2000 in
set_option synthInstance.maxHeartbeats 1000000 in
instance (d : RailData) (a : Asgn) : Decidable (transitionsOk d a) := by
  unfold transitionsOk; infer_instance

instance (d : RailData) (a : Asgn) : Decidable (capacityOk d a) := by
  unfold capacityOk; infer_instance

instance (d : RailData) (a : Asgn) : Decidable (kmInitOk d a) := by
  unfold kmInitOk; infer_instance

instance (d : RailData) (a : Asgn) : Decidable (correctiveForcingOk d a) := by
  unfold correctiveForcingOk; infer_instance

instance (d : RailData) (a : Asgn) : Decidable (routingToDepotOk d a) := by
  unfold routingToDepotOk; infer_instance

instance (d : RailData) (a : Asgn) : Decidable (kmUpdateOk d a) := by
  unfold kmUpdateOk; infer_instance

instance (d : RailData) (a : Asgn) : Decidable (manhourConsOk d a) := by
  unfold manhourConsOk; infer_instance

instance (d : RailData) (a : Asgn) : Decidable (modelSat d a) := by
  unfold modelSat; infer_instance

/-- Concrete instance for C1/C2: two vehicles starting at depot 0, two depots
of capacity 2 with 10 manhours per shift, one corrective maintenance type
(8 manhours), and a single day-1 route depot 0 → depot 1 of 100 km. -/
def D1 : RailData where
  vehicles :=
    [⟨0, 0, [], []⟩, ⟨0, 0, [], []⟩]
  locations :=
    [⟨true, 2, 10, []⟩, ⟨true, 2, 10, []⟩]
  maintenanceTypes :=
    [⟨0, .corrective, 8, none, 0, 0, 0, false⟩]
  routes :=
    [⟨1, .dayShift, 0, 1, 100⟩]

/-- Locations of the C1 witness assignment: vehicle 0 runs the route
(depot 0 at shifts 0 and 1, depot 1 at shift 2); vehicle 1 stays at depot 0. -/
def A1loc (vi σ : Nat) : Int := if vi == 0 && σ == 2 then 1 else 0

/-- An assignment admitted by the model built from `D1` in which the
maintenance instance of vehicle 1 starting at shift 1 is performed
(`perf = 1`) while every `maint_active_s` variable is 0. -/
def A1 : Asgn where
  assign := fun vi ri => vi == 0 && ri == 0
  loc := A1loc
  km := fun vi σ => if vi == 0 && σ == 2 then 100 else 0
  perf := fun k => k == (1, 0, 1)
  dep := fun _ => 0
  kms := fun _ => 0
  active := fun _ _ => false
  devPos := fun _ => 0
  devNeg := fun _ => 0
  dev := fun _ => 0
  idleL := fun vi σ => vi == 1 && σ == 1
  isAtLoc := fun vi ℓ σ => A1loc vi σ == (ℓ : Int)
  combinedL := fun _ _ => false
  isAtDepot := fun _ ℓ => ℓ == 0
  activeAtDepot := fun _ _ _ => false
  demand := fun _ _ _ => 0
  routeKmTerm := fun vi _ => if vi == 0 then 100 else 0


/-- Locations of the C2 witness assignment: vehicle 0 runs the route; vehicle 1
is idle in the day shift yet moves from depot 0 to depot 1 at the day-to-night
transition. -/
def A2loc (_vi σ : Nat) : Int := if σ == 2 then 1 else 0

/-- An assignment admitted by the model built from `D1` in which vehicle 1 is
idle in shift (1, day), under no active maintenance, and still changes
location at the next shift. -/
def A2 : Asgn where
  assign := fun vi ri => vi == 0 && ri == 0
  loc := A2loc
  km := fun vi σ => if vi == 0 && σ == 2 then 100 else 0
  perf := fun _ => false
  dep := fun _ => 0
  kms := fun _ => 0
  active := fun _ _ => false
  devPos := fun _ => 0
  devNeg := fun _ => 0
  dev := fun _ => 0
  idleL := fun vi σ => vi == 1 && σ == 1
  isAtLoc := fun vi ℓ σ => A2loc vi σ == (ℓ : Int)
  combinedL := fun _ _ => false
  isAtDepot := fun _ ℓ => ℓ == 0
  activeAtDepot := fun _ _ _ => false
  demand := fun _ _ _ => 0
  routeKmTerm := fun vi _ => if vi == 0 then 100 else 0


/-- Concrete instance for C3 (scenario S1 with a nonzero initial km): one
vehicle with 50 initial km, one 100 km day-1 route depot 0 → depot 1. -/
def D3 : RailData where
  vehicles := [⟨0, 50, [], []⟩]
  locations := [⟨true, 1, 10, []⟩, ⟨true, 1, 10, []⟩]
  maintenanceTypes := []
  routes := [⟨1, .dayShift, 0, 1, 100⟩]

/-- Locations of the C3 witness assignment. -/
def A3loc (_vi σ : Nat) : Int := if σ == 2 then 1 else 0

/-- An assignment admitted by the model built from `D3` whose km at the first
day shift (42) differs from the pinned initial km (50): the km-accumulation
loop of the source never links shift 0 to shift 1. -/
def A3 : Asgn where
  assign := fun vi ri => vi == 0 && ri == 0
  loc := A3loc
  km := fun _ σ => if σ == 0 then 50 else if σ == 1 then 42 else 142
  perf := fun _ => false
  dep := fun _ => 0
  kms := fun _ => 0
  active := fun _ _ => false
  devPos := fun _ => 0
  devNeg := fun _ => 0
  dev := fun _ => 0
  idleL := fun _ _ => false
  isAtLoc := fun vi ℓ σ => A3loc vi σ == (ℓ : Int)
  combinedL := fun _ _ => false
  isAtDepot := fun _ ℓ => ℓ == 0
  activeAtDepot := fun _ _ _ => false
  demand := fun _ _ _ => 0
  routeKmTerm := fun _ _ => 100


/-- The S2 instance of the spec: one vehicle with a pending corrective task
`(corrective_1, remaining_km = 50)` and `initial_km = 1000`, one depot, the
corrective type in the catalogue, and an empty route list. -/
def S2data : RailData where
  vehicles := [⟨0, 1000, [⟨0, 50⟩], []⟩]
  locations := [⟨true, 2, 10, []⟩]
  maintenanceTypes := [⟨0, .corrective, 6, none, 0, 0, 50, true⟩]
  routes := []


/-- Concrete instance for C6: one vehicle with two pending corrective tasks of
the same type (remaining 100 km and remaining 50 km), one corrective type of
4 manhours, one 80 km day-1 route depot 0 → depot 1. -/
def D6 : RailData where
  vehicles := [⟨0, 0, [⟨0, 100⟩, ⟨0, 50⟩], []⟩]
  locations := [⟨true, 1, 10, []⟩, ⟨true, 1, 10, []⟩]
  maintenanceTypes := [⟨0, .corrective, 4, none, 0, 0, 300, false⟩]
  routes := [⟨1, .dayShift, 0, 1, 80⟩]

/-- Locations of the C6 witness assignment. -/
def A6loc (_vi σ : Nat) : Int := if σ == 2 then 1 else 0

/-- An assignment admitted by the model built from `D6`: the vehicle runs the
80 km route, then its corrective instance starting at shift (1, night) is
performed at depot 1 with 80 km on the clock — within the first pending
task's window (100 km) but beyond the second one's (50 km). -/
def A6 : Asgn where
  assign := fun vi ri => vi == 0 && ri == 0
  loc := A6loc
  km := fun _ σ => if σ == 2 then 80 else 0
  perf := fun k => k == (0, 0, 2)
  dep := fun k => if k == (0, 0, 2) then 1 else 0
  kms := fun k => if k == (0, 0, 2) then 80 else 0
  active := fun k σ => k == (0, 0, 2) && σ == 2
  devPos := fun _ => 0
  devNeg := fun _ => 0
  dev := fun _ => 0
  idleL := fun _ _ => false
  isAtLoc := fun vi ℓ σ => A6loc vi σ == (ℓ : Int)
  combinedL := fun k ri => k == (0, 0, 2) && ri == 0
  isAtDepot := fun k ℓ => (if k == (0, 0, 2) then (1 : Int) else 0) == (ℓ : Int)
  activeAtDepot := fun k ℓ σ => k == (0, 0, 2) && ℓ == 1 && σ == 2
  demand := fun k ℓ σ => if k == (0, 0, 2) && ℓ == 1 && σ == 2 then 4 else 0
  routeKmTerm := fun _ _ => 80


/-- Concrete instance for C7/C8: one vehicle, a preventive type (4 manhours,
optimal 80 km, max 200 km, specialization 0 declared only by depot 1), one
80 km day-1 route depot 0 → depot 1. -/
def D7 : RailData where
  vehicles := [⟨0, 0, [], []⟩]
  locations := [⟨true, 1, 10, []⟩, ⟨true, 1, 10, [0]⟩]
  maintenanceTypes := [⟨0, .preventive, 4, some 0, 80, 200, 0, false⟩]
  routes := [⟨1, .dayShift, 0, 1, 80⟩]

/-- Locations of the C7 witness assignment. -/
def A7loc (_vi σ : Nat) : Int := if σ == 2 then 1 else 0

/-- An assignment admitted by the model built from `D7`: the preventive
instance starting at shift (1, night) is performed exactly at its optimal km
(deviation 0), yet its deviation variable is padded to 2 via
`pos_diff = neg_diff = 1` — admissible because the linearization only forces
`dev ≥ |km − optimal|` off the optimum. -/
def A7 : Asgn where
  assign := fun vi ri => vi == 0 && ri == 0
  loc := A7loc
  km := fun _ σ => if σ == 2 then 80 else 0
  perf := fun k => k == (0, 0, 2)
  dep := fun _ => 1
  kms := fun k => if k == (0, 0, 2) then 80 else 0
  active := fun k σ => k == (0, 0, 2) && σ == 2
  devPos := fun k => if k == (0, 0, 2) then 1 else 0
  devNeg := fun k => if k == (0, 0, 2) then 1 else 0
  dev := fun k => if k == (0, 0, 2) then 2 else 0
  idleL := fun _ _ => false
  isAtLoc := fun vi ℓ σ => A7loc vi σ == (ℓ : Int)
  combinedL := fun k ri => k == (0, 0, 2) && ri == 0
  isAtDepot := fun _ ℓ => ℓ == 1
  activeAtDepot := fun k ℓ σ => k == (0, 0, 2) && ℓ == 1 && σ == 2
  demand := fun k ℓ σ => if k == (0, 0, 2) && ℓ == 1 && σ == 2 then 4 else 0
  routeKmTerm := fun _ _ => 80


/-- An assignment admitted by the model built from `D7` performing no
maintenance at all, with objective value 0 (hence optimal, since the
objective is a sum of non-negative deviation variables). -/
def A7w : Asgn where
  assign := fun vi ri => vi == 0 && ri == 0
  loc := A7loc
  km := fun _ σ => if σ == 2 then 80 else 0
  perf := fun _ => false
  dep := fun _ => 1
  kms := fun _ => 0
  active := fun _ _ => false
  devPos := fun _ => 0
  devNeg := fun _ => 0
  dev := fun _ => 0
  idleL := fun _ _ => false
  isAtLoc := fun vi ℓ σ => A7loc vi σ == (ℓ : Int)
  combinedL := fun _ _ => false
  isAtDepot := fun _ ℓ => ℓ == 1
  activeAtDepot := fun _ _ _ => false
  demand := fun _ _ _ => 0
  routeKmTerm := fun _ _ => 80


/-- `cp_model.OPTIMAL`. -/
def statusOPTIMAL : Nat := 4

/-- `cp_model.FEASIBLE`. -/
def statusFEASIBLE : Nat := 2

/-- `cp_model.INFEASIBLE`. -/
def statusINFEASIBLE : Nat := 3

/-- `cp_model.MODEL_INVALID`. -/
def statusMODELINVALID : Nat := 1

/-- `cp_model.UNKNOWN`. -/
def statusUNKNOWN : Nat := 0

/-- The dictionary returned by `solve_rail_optimization`: always `status`,
`status_code` and `wall_time`; `schedule_results` only when present. -/
structure SolveOutcome (α : Type) where
  status : String
  statusCode : Nat
  wallTime : Int
  scheduleResults : Option α

/-- The result assembly at the end of `solve_rail_optimization`: the base
dictionary is built unconditionally, and the solution projector (abstracted
as `projector`, of arbitrary result type) is invoked only under
`status == cp_model.OPTIMAL or status == cp_model.FEASIBLE`. -/
def assembleResults {α : Type} (st : Nat) (nm : String) (wt : Int)
    (projector : Unit → α) : SolveOutcome α :=
  if st = statusOPTIMAL ∨ st = statusFEASIBLE then
    ⟨nm, st, wt, some (projector ())⟩
  else
    ⟨nm, st, wt, none⟩

/-- The assignment `a` with the deviation triple of every instance replaced by
the canonical tightest values: for a performed instance the exact positive and
negative parts of `km_at_maint_start − optimal_km`, and 0 otherwise.  Used to
show that any objective-minimizing admitted assignment has exact deviations. -/
def canonDev (d : RailData) (a : Asgn) : Asgn :=
  { a with
    devPos := fun k =>
      if a.perf k = true then max (a.kms k - mtOptimalKm d k.2.1) 0 else 0,
    devNeg := fun k =>
      if a.perf k = true then max (mtOptimalKm d k.2.1 - a.kms k) 0 else 0,
    dev := fun k =>
      if a.perf k = true then |a.kms k - mtOptimalKm d k.2.1| else 0 }

/-- Two vehicles that agree on every field read by the optimizer and may
differ in `pending_preventive_tasks`. -/
def SameExceptPendingPreventive (v1 v2 : Vehicle) : Prop :=
  v1.initialLocation = v2.initialLocation ∧ v1.initialKm = v2.initialKm ∧
  v1.pendingCorrectiveTasks = v2.pendingCorrectiveTasks

/-- The instance with every vehicle's `pending_preventive_tasks` emptied. -/
def scrubPendingPreventive (d : RailData) : RailData :=
  { d with vehicles :=
      d.vehicles.map (fun v => { v with pendingPreventiveTasks := [] }) }

/-- `D7` with a nonempty `pending_preventive_tasks` list on its vehicle:
differs from `D7` only in the field the optimizer never reads. -/
def D10 : RailData where
  vehicles := [⟨0, 0, [], [⟨0, 500⟩]⟩]
  locations := [⟨true, 1, 10, []⟩, ⟨true, 1, 10, [0]⟩]
  maintenanceTypes := [⟨0, .preventive, 4, some 0, 80, 200, 0, false⟩]
  routes := [⟨1, .dayShift, 0, 1, 80⟩]

/-- Claim C1, refuted by evaluating the built model: `D1`'s model admits the
assignment `A1` in which the maintenance instance `(1, 0, 1)` has `perf = 1`
while its `maint_active_s` variable on shift 1 — a shift of its window — is 0.
The source emits only the `active → perf` direction (twice, in two equivalent
forms), never the claimed `perf → active` direction of the equivalence. -/
theorem C1_code_eval :
    modelSat D1 A1 ∧ A1.perf (1, 0, 1) = true ∧
    (1 : Nat) ∈ windowList D1 (1, 0, 1) ∧ A1.active (1, 0, 1) 1 = false := by
  decide

/-- Claim C2, refuted by evaluating the built model: `D1`'s model admits the
assignment `A2` in which vehicle 1 is idle in shift 1 (no route assigned),
has no active maintenance, the shift is a day shift, yet its location changes
from depot 0 to depot 1 at the next shift.  The idle-continuity constraint is
skipped because `maint_active_in_shift` tests the existence of an active
*variable*, not its value. -/
theorem C2_code_eval :
    modelSat D1 A2 ∧
    ((routesAt D1 1).map (fun p => boolInt (A2.assign 1 p.1))).sum = 0 ∧
    (∀ k ∈ instKeys D1, A2.active k 1 = false) ∧
    shiftKindOf 1 = .dayShift ∧
    A2.loc 1 1 = 0 ∧ A2.loc 1 2 = 1 := by
  decide

/-- Claim C3, refuted by evaluating the built model: `D3`'s model admits the
assignment `A3` with `km[v, 0] = 50` (the pinned initial km) but
`km[v, 1] = 42`, although no route is scheduled at the initial pseudo-shift —
the km-accumulation loop of the source skips the `σ = 0 → 1` transition, so
`km[v, 1]` is unconstrained. -/
theorem C3_code_eval :
    modelSat D3 A3 ∧ routesAt D3 0 = [] ∧
    A3.km 0 0 = 50 ∧ A3.km 0 1 = 42 := by
  decide

/-- Claim C4, refuted by evaluating the builder on the S2 instance: the route
list is empty, so `planning_days = max(route["day"] for route in routes)`
has no value (Python raises `ValueError`) and no model, hence no schedule,
is ever produced. -/
theorem C4_code_eval : S2data.routes = [] ∧ horizonDays S2data = none := by
  decide

/-- Claim C5, refuted at `manhours = 12`: the code's duration (floor division)
is 1 shift, while the claimed `clamp(⌈12/8⌉, 1, 5)` (ceiling division,
`⌈12/8⌉ = (12+7)/8`) is 2 shifts. -/
theorem C5_counterexample :
    estDuration 12 = 1 ∧ min (max 1 ((12 + 7) / 8)) 5 = 2 := by
  decide

/-- Claim C5 (amended): the duration is `clamp(⌊manhours/8⌋, 1, 5)` — floor,
not ceiling, division — and the per-shift manhour draw `⌊manhours/dur⌋` is an
integer that is at least 1 whenever `manhours ≥ 1`. -/
theorem C5_amended (h : Nat) (hp : 1 ≤ h) :
    estDuration h = min (max 1 (h / 8)) 5 ∧ 1 ≤ perShiftDraw h := by
  have hpos : 1 ≤ estDuration h := le_min (le_max_left 1 _) (by norm_num)
  have hle : estDuration h ≤ h := by
    rcases Nat.lt_or_ge h 8 with h8 | h8
    · have h0 : h / 8 = 0 := Nat.div_eq_of_lt h8
      unfold estDuration
      rw [h0]
      simpa using hp
    · calc estDuration h ≤ max 1 (h / 8) := min_le_left _ _
        _ = h / 8 := max_eq_right ((Nat.one_le_div_iff (by norm_num)).mpr h8)
        _ ≤ h := Nat.div_le_self h 8
  exact ⟨rfl, (Nat.one_le_div_iff hpos).mpr hle⟩

/-- Witness for the amended C5 at `manhours = 12`. -/
theorem C5_amended_witness :
    1 ≤ 12 ∧ (estDuration 12 = min (max 1 (12 / 8)) 5 ∧ 1 ≤ perShiftDraw 12) :=
  ⟨by decide, C5_amended 12 (by decide)⟩

/-- Claim C9: for every solver status other than OPTIMAL and FEASIBLE
(INFEASIBLE, UNKNOWN, MODEL_INVALID), the returned result carries only the
status name, status code and wall time, with no schedule — the projector's
output is absent from the result. -/
theorem C9_theorem {α : Type} (st : Nat) (nm : String) (wt : Int)
    (p : Unit → α)
    (hst : st = statusINFEASIBLE ∨ st = statusUNKNOWN ∨ st = statusMODELINVALID) :
    (assembleResults st nm wt p).scheduleResults = none ∧
    (assembleResults st nm wt p).status = nm ∧
    (assembleResults st nm wt p).statusCode = st ∧
    (assembleResults st nm wt p).wallTime = wt := by
  have hne : ¬(st = statusOPTIMAL ∨ st = statusFEASIBLE) := by
    rcases hst with h | h | h <;>
      simp [h, statusOPTIMAL, statusFEASIBLE, statusINFEASIBLE, statusUNKNOWN,
        statusMODELINVALID]
  simp [assembleResults, hne]

/-- Witness for C9 at the INFEASIBLE status code. -/
theorem C9_witness :
    ((3 : Nat) = statusINFEASIBLE ∨ (3 : Nat) = statusUNKNOWN ∨
      (3 : Nat) = statusMODELINVALID) ∧
    (assembleResults 3 "INFEASIBLE" 1 (fun _ => (0 : Nat))).scheduleResults = none :=
  ⟨by decide, (C9_theorem 3 "INFEASIBLE" 1 (fun _ => (0 : Nat)) (by decide)).1⟩

/-- Claim C6, refuted by evaluating the built model: vehicle 0 of `D6` has two
pending corrective tasks of type 0 (remaining 100 km and remaining 50 km);
the model admits `A6`, which performs instance `(0, 0, 2)` at 80 km — beyond
the 50 km window of the second pending task.  The source `break`s after the
first matching pending task, so only the first task's window is enforced. -/
theorem C6_counterexample :
    modelSat D6 A6 ∧
    (⟨0, 50⟩ : PendingTask) ∈ vehPendingCorrective D6 0 ∧
    mtKind D6 0 = some .corrective ∧ mtId D6 0 = 0 ∧
    A6.perf (0, 0, 2) = true ∧
    vehInitialKm D6 0 + 50 < A6.kms (0, 0, 2) := by
  decide

/-- Claim C6 (amended): for every admitted assignment and every corrective
maintenance instance `m` of vehicle `v`, if the *first* pending corrective
task of `v` whose type matches `m`'s type has remaining kilometrage `R`, then
`perf[m] = 1` implies `km_at_maint_start[m] ≤ initial_km(v) + R`; later
duplicate tasks of the same type impose no bound. -/
theorem C6_amended (d : RailData) (a : Asgn) (hs : modelSat d a)
    (k : Nat × Nat × Nat) (hk : k ∈ instKeys d)
    (hc : mtKind d k.2.1 = some .corrective)
    (t : PendingTask)
    (ht : (vehPendingCorrective d k.1).find?
        (fun p => p.maintenanceTypeId == mtId d k.2.1) = some t)
    (hp : a.perf k = true) :
    a.kms k ≤ vehInitialKm d k.1 + t.remainingKm := by
  obtain ⟨-, -, -, hinst, -⟩ := hs
  obtain ⟨-, -, hcor, -⟩ := hinst k hk
  exact hcor hc t (Option.mem_def.mpr ht) hp

/-- Witness for the amended C6 on the concrete instance `D6`: the performed
instance respects the first pending task's window (100 km). -/
theorem C6_amended_witness :
    modelSat D6 A6 ∧ A6.kms (0, 0, 2) ≤ vehInitialKm D6 0 + 100 :=
  ⟨by decide,
    C6_amended D6 A6 (by decide) (0, 0, 2) (by decide) (by decide)
      ⟨0, 100⟩ (by decide) (by decide)⟩

/-- Claim C8: when every specialized maintenance type has at least one capable
depot (the load invariant), the depot variable of every instance whose type
carries specialization `sp` can only take the index of a depot declaring
`sp` — the variable's domain contains only capable depots. -/
theorem C8_theorem (d : RailData) (a : Asgn)
    (hload : ∀ mt ∈ d.maintenanceTypes, ∀ sp ∈ mt.specialization,
      capableDepotIdx d sp ≠ [])
    (hs : modelSat d a) :
    ∀ k ∈ instKeys d, ∀ sp, mtSpecialization d k.2.1 = some sp →
      ∃ ℓ : Nat, a.dep k = (ℓ : Int) ∧ ∃ ld, locAt d ℓ = some ld ∧
        ld.isDepot = true ∧ sp ∈ ld.specializedMaintenance := by
  intro k hk sp hsp
  obtain ⟨-, -, hdom, -⟩ := hs
  obtain ⟨hdep, -⟩ := hdom.2 k hk
  obtain ⟨mt, hmt, hmtsp⟩ : ∃ mt, mtAt d k.2.1 = some mt ∧
      mt.specialization = some sp := by
    unfold mtSpecialization at hsp
    exact Option.bind_eq_some.mp hsp
  have hmem : mt ∈ d.maintenanceTypes := by
    unfold mtAt at hmt
    exact List.getElem?_mem hmt
  have hcap : capableDepotIdx d sp ≠ [] :=
    hload mt hmem sp (Option.mem_def.mpr hmtsp)
  have hdomeq : depDomain d k.2.1 = capableDepotIdx d sp := by
    unfold depDomain
    rw [hsp]
    simp [hcap]
  rw [hdomeq] at hdep
  have hdep' : ∃ n ∈ capableDepotIdx d sp, Int.ofNat n = a.dep k :=
    List.mem_map.mp hdep
  obtain ⟨ℓ, hℓcap, hℓeq⟩ := hdep'
  refine ⟨ℓ, hℓeq.symm, ?_⟩
  unfold capableDepotIdx at hℓcap
  obtain ⟨-, hpred⟩ := List.mem_filter.mp hℓcap
  rcases hld : locAt d ℓ with _ | ld
  · rw [hld] at hpred
    simp at hpred
  · rw [hld] at hpred
    simp only [Bool.and_eq_true] at hpred
    exact ⟨ld, rfl, hpred.1, List.mem_of_elem_eq_true hpred.2⟩

/-- Witness for C8 on the concrete instance `D7`, whose preventive type
carries specialization 0 declared only by depot 1. -/
theorem C8_witness :
    modelSat D7 A7 ∧
    ∃ ℓ : Nat, A7.dep (0, 0, 2) = (ℓ : Int) ∧ ∃ ld, locAt D7 ℓ = some ld ∧
      ld.isDepot = true ∧ 0 ∈ ld.specializedMaintenance :=
  ⟨by decide,
    C8_theorem D7 A7 (by decide) (by decide) (0, 0, 2) (by decide) 0 (by decide)⟩

/-- Membership in `preventiveKeys` unpacked. -/
theorem mem_preventiveKeys {d : RailData} {k : Nat × Nat × Nat}
    (hk : k ∈ preventiveKeys d) :
    k ∈ instKeys d ∧ mtKind d k.2.1 = some MKind.preventive := by
  unfold preventiveKeys at hk
  obtain ⟨h1, h2⟩ := List.mem_filter.mp hk
  exact ⟨h1, of_decide_eq_true h2⟩

/-- The positive/negative-part decomposition of an integer difference. -/
theorem int_max_decomp (x y : Int) :
    max (x - y) 0 - max (y - x) 0 = x - y ∧
    |x - y| = max (x - y) 0 + max (y - x) 0 := by
  rcases le_total x y with h | h
  · rw [max_eq_right (by linarith : x - y ≤ (0 : Int)),
      max_eq_left (by linarith : (0 : Int) ≤ y - x),
      abs_of_nonpos (by linarith : x - y ≤ (0 : Int))]
    constructor <;> ring
  · rw [max_eq_left (by linarith : (0 : Int) ≤ x - y),
      max_eq_right (by linarith : y - x ≤ (0 : Int)),
      abs_of_nonneg (by linarith : (0 : Int) ≤ x - y)]
    constructor <;> ring

/-- Every admitted assignment has a non-negative objective (the deviation
variables have non-negative domains). -/
theorem objective_nonneg {d : RailData} {a : Asgn} (hs : modelSat d a) :
    0 ≤ objective d a := by
  obtain ⟨-, -, hdom, -⟩ := hs
  unfold objective
  apply List.sum_nonneg
  intro x hx
  obtain ⟨k, hk, rfl⟩ := List.mem_map.mp hx
  obtain ⟨hki, hkp⟩ := mem_preventiveKeys hk
  exact ((hdom.2 k hki).2.2.2 hkp).1

/-- Every admitted assignment's objective dominates the spec's sum of absolute
deviations of performed preventive instances. -/
theorem perfDevSum_le_objective {d : RailData} {a : Asgn} (hs : modelSat d a) :
    perfDeviationSum d a ≤ objective d a := by
  obtain ⟨-, -, hdom, hinst, -⟩ := hs
  unfold perfDeviationSum objective
  apply List.sum_le_sum
  intro k hk
  obtain ⟨hki, hkp⟩ := mem_preventiveKeys hk
  have hbp := (hdom.2 k hki).2.2.2 hkp
  rcases hperf : a.perf k with _ | _
  · simp only [hperf, Bool.false_eq_true, if_false]
    exact hbp.1
  · simp only [hperf, if_true]
    have hd : a.kms k - mtOptimalKm d k.2.1 = a.devPos k - a.devNeg k :=
      ((hinst k hki).2.1 hkp).2.1 hperf
    have hv : a.dev k = a.devPos k + a.devNeg k :=
      ((hinst k hki).2.1 hkp).2.2.1 hperf
    rw [hd, hv]
    apply abs_le.mpr
    constructor <;> linarith [hbp.2.2.1, hbp.2.2.2.2.1]

/-- Replacing the deviation triples by their canonical tightest values
preserves admissibility: no other constraint mentions them. -/
theorem modelSat_canonDev {d : RailData} {a : Asgn} (hs : modelSat d a) :
    modelSat d (canonDev d a) := by
  obtain ⟨h1, h2, hdom, hinst, hcov, huniq, hexcl, hinit, htrans, hcap, hkm,
    hforce, hroute, hupd, hman⟩ := hs
  refine ⟨h1, h2, ⟨hdom.1, ?_⟩, ?_, hcov, huniq, hexcl, hinit, htrans, hcap,
    hkm, hforce, hroute, hupd, hman⟩
  · intro k hk
    have hb := hdom.2 k hk
    refine ⟨hb.1, hb.2.1, hb.2.2.1, ?_⟩
    intro hkp
    have hbp := hb.2.2.2 hkp
    have hmp : 0 ≤ maxPossibleKm d := le_trans hbp.1 hbp.2.1
    have hd : a.perf k = true →
        a.kms k - mtOptimalKm d k.2.1 = a.devPos k - a.devNeg k :=
      ((hinst k hk).2.1 hkp).2.1
    rcases hperf : a.perf k with _ | _
    · simp only [canonDev, hperf, Bool.false_eq_true, if_false]
      exact ⟨le_refl 0, hmp, le_refl 0, hmp, le_refl 0, hmp⟩
    · have hde := hd hperf
      simp only [canonDev, hperf, if_true]
      refine ⟨abs_nonneg _, ?_, le_max_right _ _, ?_, le_max_right _ _, ?_⟩
      · rw [(int_max_decomp (a.kms k) (mtOptimalKm d k.2.1)).2]
        rcases le_total (a.kms k - mtOptimalKm d k.2.1) 0 with h | h
        · rw [max_eq_right h, max_eq_left (by linarith : (0 : Int) ≤ _)]
          have : mtOptimalKm d k.2.1 - a.kms k = a.devNeg k - a.devPos k := by
            linarith [hde]
          rw [this]
          linarith [hbp.2.2.1, hbp.2.2.2.2.2]
        · rw [max_eq_left (by linarith : (0 : Int) ≤ _),
            max_eq_right (by linarith : _ ≤ (0 : Int))]
          rw [hde]
          linarith [hbp.2.2.2.1, hbp.2.2.2.2.1]
      · apply max_le _ hmp
        rw [hde]
        linarith [hbp.2.2.2.1, hbp.2.2.2.2.1]
      · apply max_le _ hmp
        have : mtOptimalKm d k.2.1 - a.kms k = a.devNeg k - a.devPos k := by
          linarith [hde]
        rw [this]
        linarith [hbp.2.2.1, hbp.2.2.2.2.2]
  · intro k hk
    have hi := hinst k hk
    refine ⟨hi.1, ?_, hi.2.2.1, hi.2.2.2.1, hi.2.2.2.2⟩
    intro hkp
    refine ⟨(hi.2.1 hkp).1, ?_, ?_, ?_⟩
    · intro hperf
      have hp : a.perf k = true := hperf
      simp only [canonDev, hp, if_true]
      exact ((int_max_decomp (a.kms k) (mtOptimalKm d k.2.1)).1).symm
    · intro hperf
      have hp : a.perf k = true := hperf
      simp only [canonDev, hp, if_true]
      exact (int_max_decomp (a.kms k) (mtOptimalKm d k.2.1)).2
    · intro hperf
      have hp : a.perf k = false := hperf
      simp only [canonDev, hp, Bool.false_eq_true, if_false]

/-- The canonicalized assignment's objective is exactly the spec's sum of
absolute deviations of the original assignment. -/
theorem objective_canonDev (d : RailData) (a : Asgn) :
    objective d (canonDev d a) = perfDeviationSum d a := rfl

/-- Claim C7, refuted by evaluating the built model: `D7`'s model admits the
assignment `A7` whose performed preventive instance sits exactly at its
optimal km, yet whose objective is 2, not the claimed sum 0 of absolute
deviations: off the optimum, the linearization only forces
`dev ≥ |km − optimal|`. -/
theorem C7_counterexample :
    modelSat D7 A7 ∧ A7.perf (0, 0, 2) = true ∧
    objective D7 A7 = 2 ∧ perfDeviationSum D7 A7 = 0 := by
  decide

/-- Claim C7 (amended): for every admitted (FEASIBLE) assignment, each
unperformed preventive instance contributes exactly 0 (its deviation variable
is forced to 0) and the objective is at least the sum over performed
preventive instances of `|km_at_maint_start − optimal_km|`; and whenever the
assignment additionally minimizes the objective among admitted assignments
(every OPTIMAL schedule), the objective equals that sum exactly. -/
theorem C7_amended (d : RailData) (a : Asgn) (hs : modelSat d a) :
    (∀ k ∈ preventiveKeys d, a.perf k = false → a.dev k = 0) ∧
    perfDeviationSum d a ≤ objective d a ∧
    ((∀ b : Asgn, modelSat d b → objective d a ≤ objective d b) →
      objective d a = perfDeviationSum d a) := by
  refine ⟨?_, perfDevSum_le_objective hs, ?_⟩
  · intro k hk hperf
    obtain ⟨hki, hkp⟩ := mem_preventiveKeys hk
    obtain ⟨-, -, -, hinst, -⟩ := hs
    exact ((hinst k hki).2.1 hkp).2.2.2 hperf
  · intro hmin
    have hle := perfDevSum_le_objective hs
    have hge := hmin (canonDev d a) (modelSat_canonDev hs)
    rw [objective_canonDev] at hge
    omega

/-- Witness for the amended C7 on `D7` with the maintenance-free assignment
`A7w`: both unconditional parts hold, and the conditional equality applies
because `A7w`'s objective 0 is minimal (objectives of admitted assignments
are non-negative). -/
theorem C7_amended_witness :
    modelSat D7 A7w ∧
    ((∀ k ∈ preventiveKeys D7, A7w.perf k = false → A7w.dev k = 0) ∧
      perfDeviationSum D7 A7w ≤ objective D7 A7w ∧
      ((∀ b : Asgn, modelSat D7 b → objective D7 A7w ≤ objective D7 b) →
        objective D7 A7w = perfDeviationSum D7 A7w)) ∧
    objective D7 A7w = perfDeviationSum D7 A7w :=
  ⟨by decide, C7_amended D7 A7w (by decide),
    (C7_amended D7 A7w (by decide)).2.2
      (fun b hb => by
        have h0 : objective D7 A7w = 0 := by decide
        rw [h0]
        exact objective_nonneg hb)⟩

/-- Scrubbing does not change the locations. -/
theorem scrub_locations (d : RailData) :
    (scrubPendingPreventive d).locations = d.locations := rfl

/-- Scrubbing does not change the maintenance-type catalogue. -/
theorem scrub_maintTypes (d : RailData) :
    (scrubPendingPreventive d).maintenanceTypes = d.maintenanceTypes := rfl

/-- Scrubbing does not change the routes. -/
theorem scrub_routes (d : RailData) :
    (scrubPendingPreventive d).routes = d.routes := rfl

/-- Scrubbing preserves the planning horizon. -/
theorem horizonDays_scrub (d : RailData) :
    horizonDays (scrubPendingPreventive d) = horizonDays d := rfl

/-- Scrubbing preserves the shift count. -/
theorem numShifts_scrub (d : RailData) :
    numShifts (scrubPendingPreventive d) = numShifts d := rfl

/-- Scrubbing preserves the vehicle count. -/
theorem numVehicles_scrub (d : RailData) :
    numVehicles (scrubPendingPreventive d) = numVehicles d := by
  simp [numVehicles, scrubPendingPreventive]

/-- Scrubbing preserves vehicle-list nonemptiness. -/
theorem scrub_vehicles_ne (d : RailData) :
    ((scrubPendingPreventive d).vehicles ≠ []) ↔ (d.vehicles ≠ []) := by
  simp [scrubPendingPreventive]

/-- Scrubbing preserves every vehicle's initial km. -/
theorem vehInitialKm_scrub (d : RailData) (vi : Nat) :
    vehInitialKm (scrubPendingPreventive d) vi = vehInitialKm d vi := by
  unfold vehInitialKm scrubPendingPreventive
  simp only [List.getElem?_map]
  cases d.vehicles[vi]? <;> rfl

/-- Scrubbing preserves every vehicle's initial location. -/
theorem vehInitialLoc_scrub (d : RailData) (vi : Nat) :
    vehInitialLoc (scrubPendingPreventive d) vi = vehInitialLoc d vi := by
  unfold vehInitialLoc scrubPendingPreventive
  simp only [List.getElem?_map]
  cases d.vehicles[vi]? <;> rfl

/-- Scrubbing preserves every vehicle's pending corrective tasks. -/
theorem vehPendingCorrective_scrub (d : RailData) (vi : Nat) :
    vehPendingCorrective (scrubPendingPreventive d) vi =
      vehPendingCorrective d vi := by
  unfold vehPendingCorrective scrubPendingPreventive
  simp only [List.getElem?_map]
  cases d.vehicles[vi]? <;> rfl

/-- Scrubbing preserves the maximal initial km. -/
theorem maxInitialKm_scrub (d : RailData) :
    maxInitialKm (scrubPendingPreventive d) = maxInitialKm d := by
  unfold maxInitialKm scrubPendingPreventive
  simp only [List.map_map]
  rfl

/-- Scrubbing preserves the km upper bound. -/
theorem maxPossibleKm_scrub (d : RailData) :
    maxPossibleKm (scrubPendingPreventive d) = maxPossibleKm d := by
  unfold maxPossibleKm
  rw [maxInitialKm_scrub, scrub_routes]

/-- Scrubbing preserves maintenance-type accessors. -/
theorem mtKind_scrub (d : RailData) (ti : Nat) :
    mtKind (scrubPendingPreventive d) ti = mtKind d ti := rfl

/-- Scrubbing preserves maintenance-type ids. -/
theorem mtId_scrub (d : RailData) (ti : Nat) :
    mtId (scrubPendingPreventive d) ti = mtId d ti := rfl

/-- Scrubbing preserves maintenance-type manhours. -/
theorem mtManhours_scrub (d : RailData) (ti : Nat) :
    mtManhours (scrubPendingPreventive d) ti = mtManhours d ti := rfl

/-- Scrubbing preserves the preventive bounds. -/
theorem mtMaxKm_scrub (d : RailData) (ti : Nat) :
    mtMaxKm (scrubPendingPreventive d) ti = mtMaxKm d ti := rfl

/-- Scrubbing preserves the preventive targets. -/
theorem mtOptimalKm_scrub (d : RailData) (ti : Nat) :
    mtOptimalKm (scrubPendingPreventive d) ti = mtOptimalKm d ti := rfl

/-- Scrubbing preserves location accessors. -/
theorem locIsDepot_scrub (d : RailData) (ℓ : Nat) :
    locIsDepot (scrubPendingPreventive d) ℓ = locIsDepot d ℓ := rfl

/-- Scrubbing preserves location capacities. -/
theorem locCapacity_scrub (d : RailData) (ℓ : Nat) :
    locCapacity (scrubPendingPreventive d) ℓ = locCapacity d ℓ := rfl

/-- Scrubbing preserves depot manhour budgets. -/
theorem locManhours_scrub (d : RailData) (ℓ : Nat) :
    locManhours (scrubPendingPreventive d) ℓ = locManhours d ℓ := rfl

/-- Scrubbing preserves depot domains. -/
theorem depDomain_scrub (d : RailData) (ti : Nat) :
    depDomain (scrubPendingPreventive d) ti = depDomain d ti := rfl

/-- Scrubbing preserves the per-shift route lists. -/
theorem routesAt_scrub (d : RailData) (σ : Nat) :
    routesAt (scrubPendingPreventive d) σ = routesAt d σ := rfl

/-- Scrubbing preserves the instance keys. -/
theorem instKeys_scrub (d : RailData) :
    instKeys (scrubPendingPreventive d) = instKeys d := by
  unfold instKeys
  rw [numVehicles_scrub, numShifts_scrub, scrub_maintTypes]

/-- Scrubbing preserves active windows. -/
theorem windowList_scrub (d : RailData) (k : Nat × Nat × Nat) :
    windowList (scrubPendingPreventive d) k = windowList d k := rfl

/-- Scrubbing preserves the `maint_active_in_shift` flag. -/
theorem maintActiveInShift_scrub (d : RailData) (vi σ : Nat) :
    maintActiveInShift (scrubPendingPreventive d) vi σ =
      maintActiveInShift d vi σ := by
  unfold maintActiveInShift
  simp only [instKeys_scrub, windowList_scrub]

/-- Scrubbing preserves the preventive instance keys. -/
theorem preventiveKeys_scrub (d : RailData) :
    preventiveKeys (scrubPendingPreventive d) = preventiveKeys d := by
  unfold preventiveKeys
  simp only [instKeys_scrub, mtKind_scrub]

/-- Scrubbing preserves the objective. -/
theorem objective_scrub (d : RailData) (a : Asgn) :
    objective (scrubPendingPreventive d) a = objective d a := by
  unfold objective
  rw [preventiveKeys_scrub]

/-- The built model only reads the scrubbed part of the instance: scrubbing
the pending preventive tasks changes no constraint. -/
theorem modelSat_scrub (d : RailData) (a : Asgn) :
    modelSat (scrubPendingPreventive d) a ↔ modelSat d a := by
  unfold modelSat varDomainsOk instanceConsOk coverageOk uniquenessOk
    exclusivityOk initialLocOk transitionsOk capacityOk kmInitOk
    correctiveForcingOk routingToDepotOk kmUpdateOk manhourConsOk
  simp only [horizonDays_scrub, numShifts_scrub, numVehicles_scrub,
    scrub_vehicles_ne, scrub_locations, scrub_maintTypes, scrub_routes,
    vehInitialKm_scrub, vehInitialLoc_scrub, vehPendingCorrective_scrub,
    maxInitialKm_scrub, maxPossibleKm_scrub, mtKind_scrub, mtId_scrub,
    mtManhours_scrub, mtMaxKm_scrub, mtOptimalKm_scrub, locIsDepot_scrub,
    locCapacity_scrub, locManhours_scrub, depDomain_scrub, routesAt_scrub,
    instKeys_scrub, windowList_scrub, maintActiveInShift_scrub]

/-- Instances agreeing on everything but the pending preventive tasks have the
same scrubbed form. -/
theorem scrub_eq_of_sameExcept {d1 d2 : RailData}
    (hl : d1.locations = d2.locations)
    (hm : d1.maintenanceTypes = d2.maintenanceTypes)
    (hr : d1.routes = d2.routes)
    (hv : List.Forall₂ SameExceptPendingPreventive d1.vehicles d2.vehicles) :
    scrubPendingPreventive d1 = scrubPendingPreventive d2 := by
  obtain ⟨V1, L1, M1, R1⟩ := d1
  obtain ⟨V2, L2, M2, R2⟩ := d2
  simp only at hl hm hr hv
  subst hl hm hr
  unfold scrubPendingPreventive
  simp only [RailData.mk.injEq, and_true]
  induction hv with
  | nil => rfl
  | @cons v1 v2 l1 l2 h t ih =>
      simp only [List.map_cons, List.cons.injEq]
      refine ⟨?_, ih⟩
      obtain ⟨e1, e2, e3⟩ := h
      obtain ⟨i1, k1, c1, p1⟩ := v1
      obtain ⟨i2, k2, c2, p2⟩ := v2
      simp only at e1 e2 e3
      subst e1 e2 e3
      rfl

/-- Claim C10: the optimizer never consults `pending_preventive_tasks`.  Two
instances that agree on locations, maintenance types, routes, and on every
vehicle field except the pending preventive lists build the same model: the
same assignments are admitted, the objective agrees on every assignment, and
the planning horizon is the same. -/
theorem C10_theorem (d1 d2 : RailData) (a : Asgn)
    (hl : d1.locations = d2.locations)
    (hm : d1.maintenanceTypes = d2.maintenanceTypes)
    (hr : d1.routes = d2.routes)
    (hv : List.Forall₂ SameExceptPendingPreventive d1.vehicles d2.vehicles) :
    (modelSat d1 a ↔ modelSat d2 a) ∧ objective d1 a = objective d2 a ∧
    horizonDays d1 = horizonDays d2 := by
  have hs : scrubPendingPreventive d1 = scrubPendingPreventive d2 :=
    scrub_eq_of_sameExcept hl hm hr hv
  refine ⟨?_, ?_, ?_⟩
  · rw [← modelSat_scrub d1 a, ← modelSat_scrub d2 a, hs]
  · rw [← objective_scrub d1 a, ← objective_scrub d2 a, hs]
  · unfold horizonDays
    rw [hr]

/-- Witness for C10: `D7` and `D10` differ exactly in the pending preventive
tasks of their vehicle, and the model, objective and horizon coincide. -/
theorem C10_witness :
    List.Forall₂ SameExceptPendingPreventive D7.vehicles D10.vehicles ∧
    ((modelSat D7 A7 ↔ modelSat D10 A7) ∧ objective D7 A7 = objective D10 A7 ∧
      horizonDays D7 = horizonDays D10) :=
  ⟨List.Forall₂.cons ⟨rfl, rfl, rfl⟩ List.Forall₂.nil,
    C10_theorem D7 D10 A7 rfl rfl rfl
      (List.Forall₂.cons ⟨rfl, rfl, rfl⟩ List.Forall₂.nil)⟩
